import Mathlib

/-!
Shallow embedding of src/constrained.py: a constrained collection library.
A container (class Vec and friends, built on UserList) carries a tuple
of allowed classes in its attribute named constraints (double underscores
in the source), resolved at construction time, and every mutating method
is wrapped by the guard function named constrain in the source.

Python runtime values are modelled by PyVal, Python classes by PyClass,
and entries of a constraints tuple by TypeEntry (a TypeVar placeholder or
a concrete class). All definitions below are translated directly from the
source of src/constrained.py.
-/

/-- Runtime classes that appear in the program and its claims. -/
inductive PyClass where
  | intC
  | strC
  | floatC
  | listC
deriving DecidableEq, Repr

/-- Python runtime values relevant to the program: integers, strings,
floating point values (payload irrelevant to the constraint logic, so
modelled as a bare tag), and lists. -/
inductive PyVal where
  | vInt (n : Int)
  | vStr (s : String)
  | vFloat
  | vList (l : List PyVal)

/-- An entry of a constraints tuple: either a TypeVar placeholder
(as in the tuple produced for class Vec by get_args) or a concrete class. -/
inductive TypeEntry where
  | tv
  | cls (c : PyClass)
deriving DecidableEq, Repr

/-- A constraints tuple, the attribute the source spells with double
underscores around the word constraints. -/
abbrev Constraints := List TypeEntry

/-- The runtime class of a value (the attribute spelled with double
underscores around the word class in the source). -/
def classOf : PyVal → PyClass
  | .vInt _ => .intC
  | .vStr _ => .strC
  | .vFloat => .floatC
  | .vList _ => .listC

/-- Whether isinstance(a, Iterable) holds: strings and lists are iterable,
integers and floats are not. -/
def isIterable : PyVal → Bool
  | .vStr _ => true
  | .vList _ => true
  | _ => false

/-- Iterating a value: a list yields its elements, a string yields its
characters as one-character strings, non-iterables yield nothing (the
guard only iterates after an isinstance Iterable check). -/
def elems : PyVal → List PyVal
  | .vList l => l
  | .vStr s => s.data.map (fun c => .vStr (String.mk [c]))
  | _ => []

/-- In Python every object has a class attribute and class objects are
truthy, so the truth test applied to it in the guard always succeeds. -/
def truthyClass (_ : PyVal) : Bool := true

/-- Membership test the source writes as: a class in self constraints.
A TypeVar entry never equals a class object, so only cls entries match. -/
def memC (cs : Constraints) (c : PyClass) : Bool :=
  cs.any (fun e => decide (e = TypeEntry.cls c))

/-- Outcome of the argument scan performed by the wrapper that the
guard function constrain builds around a method. -/
inductive GuardOutcome where
  | delegate
  | raiseArg
  | raiseElems
  | fallthrough
deriving DecidableEq, Repr

/-- The loop over positional args in the wrapper built by constrain:
for each arg a, if the class of a is in the constraints, delegate at once;
otherwise if a is iterable, test all(e class for e in a) and raise on
failure, else keep scanning; a non-iterable arg not in the constraints
raises; falling off the loop returns None without delegating. -/
def constrainScan (cs : Constraints) : List PyVal → GuardOutcome
  | [] => .fallthrough
  | a :: rest =>
    if memC cs (classOf a) then .delegate
    else if isIterable a then
      if (elems a).all truthyClass then constrainScan cs rest
      else .raiseElems
    else .raiseArg

/-- A constrained container instance: the stored element list (the data
attribute of UserList) and the instance-resolved constraints tuple. -/
structure Vec where
  data : List PyVal
  constraints : Constraints

/-- Running a guarded method: the scan decides between delegating to the
wrapped method, returning None with the container untouched, or raising
one of the two TypeError messages of the guard. -/
def constrainedCall (delegate : Except String Vec) (v : Vec)
    (args : List PyVal) : Except String Vec :=
  match constrainScan v.constraints args with
  | .delegate => delegate
  | .fallthrough => .ok v
  | .raiseElems => .error "Invalid element types"
  | .raiseArg => .error "Invalid type for argument"

/-- Python list insertion semantics: list.insert clamps the index into
range, counting from the end when negative. -/
def pyInsertIdx (l : List PyVal) (i : Int) (x : PyVal) : List PyVal :=
  let n : Int := l.length
  let j : Nat := (if i < 0 then max (n + i) 0 else min i n).toNat
  l.take j ++ x :: l.drop j

/-- UserList append: self.data.append(item). -/
def listAppend (v : Vec) (x : PyVal) : Except String Vec :=
  .ok { v with data := v.data ++ [x] }

/-- UserList insert: self.data.insert(i, item); a non-integer index makes
the underlying list raise a TypeError. -/
def listInsert (v : Vec) (i : PyVal) (x : PyVal) : Except String Vec :=
  match i with
  | .vInt n => .ok { v with data := pyInsertIdx v.data n x }
  | _ => .error "list indices must be integers"

/-- Underlying list extension, as in self.data.extend(other) and
self.data += other: succeeds on any iterable, appending its elements,
and raises on a non-iterable. -/
def listExtend (v : Vec) (other : PyVal) : Except String Vec :=
  if isIterable other then .ok { v with data := v.data ++ elems other }
  else .error "object is not iterable"

/-- Python list repetition, as in self.data *= n: a non-positive count
empties the list. -/
def listRepeat (l : List PyVal) (n : Int) : List PyVal :=
  (List.replicate n.toNat l).flatten

/-- Vec.append, which the source defines as constrain applied to
UserList.append. -/
def Vec.append (v : Vec) (x : PyVal) : Except String Vec :=
  constrainedCall (listAppend v x) v [x]

/-- Vec.insert, which the source defines as constrain applied to
UserList.insert; the index is the first positional argument. -/
def Vec.insert (v : Vec) (i : PyVal) (x : PyVal) : Except String Vec :=
  constrainedCall (listInsert v i x) v [i, x]

/-- Vec.extend, guarded by constrain, delegating to self.data.extend. -/
def Vec.extend (v : Vec) (other : PyVal) : Except String Vec :=
  constrainedCall (listExtend v other) v [other]

/-- Vec in-place repetition (the imul dunder), guarded by constrain,
delegating to self.data *= n. -/
def Vec.imul (v : Vec) (n : PyVal) : Except String Vec :=
  constrainedCall
    (match n with
      | .vInt k => .ok { v with data := listRepeat v.data k }
      | _ => .error "unsupported operand type for repetition")
    v [n]

/-- Vec in-place concatenation (the iadd dunder), guarded by constrain,
delegating to self.data += other. -/
def Vec.iadd (v : Vec) (other : PyVal) : Except String Vec :=
  constrainedCall (listExtend v other) v [other]

/-- The setitem guard that init subclass installs: the value class must be
in the constraints, else TypeError; on success the underlying list cell is
assigned (an out-of-range index raises an IndexError as in Python). -/
def Vec.setitem (v : Vec) (key : Int) (val : PyVal) : Except String Vec :=
  if memC v.constraints (classOf val) then
    let n : Int := v.data.length
    let j : Int := if key < 0 then n + key else key
    if 0 ≤ j ∧ j < n then .ok { v with data := v.data.set j.toNat val }
    else .error "list assignment index out of range"
  else .error "Invalid value type for Constrained class"

/-- The test the constrained init performs on the class-level constraints:
it infers from the elements when the attribute is None or the empty tuple,
or when its first entry is a TypeVar. -/
def needsInference : Option Constraints → Bool
  | none => true
  | some [] => true
  | some (.tv :: _) => true
  | some (.cls _ :: _) => false

/-- The inferred constraints tuple: tuple(set(e class for e in arg)),
distinct runtime classes of the initial batch in some order. -/
def inferredConstraints (arg : List PyVal) : Constraints :=
  ((arg.map classOf).dedup).map TypeEntry.cls

/-- Resolution of the instance constraints in the constrained init:
an explicit constraints keyword wins; otherwise inference applies when
the class-level tuple is unset, empty or headed by a TypeVar; otherwise
the class-level tuple is kept. -/
def resolveConstraints (classC : Option Constraints)
    (explicit : Option Constraints) (arg : List PyVal) : Constraints :=
  match explicit with
  | some cs => cs
  | none =>
    if needsInference classC then inferredConstraints arg
    else classC.getD []

/-- The constrained init installed by init subclass: resolve the
constraints, then demand every element of the initial batch has its class
in the resolved tuple, raising a TypeError otherwise; on success the own
init of UserList stores the batch as the data list. -/
def constrainedInit (classC : Option Constraints)
    (explicit : Option Constraints) (arg : List PyVal) : Except String Vec :=
  let cs := resolveConstraints classC explicit arg
  if arg.all (fun x => memC cs (classOf x)) then .ok ⟨arg, cs⟩
  else .error "Invalid value type for Constrained class"

/-- Class-level constraints of Vec: get_args(Constrained[T]) yields the
one-element tuple holding the TypeVar T. -/
def vecClassConstraints : Option Constraints := some [.tv]

/-- Class-level constraints of Array: the explicit derivation argument,
the one-element tuple holding int. -/
def arrayClassConstraints : Option Constraints := some [.cls .intC]

/-- Class-level constraints of StrArray: get_args(Constrained[str]). -/
def strArrayClassConstraints : Option Constraints := some [.cls .strC]

/-- The container the demonstration calls l3: Vec([1, "a"],
constraints=(str, int)). -/
def l3c : Vec := ⟨[.vInt 1, .vStr "a"], [.cls .strC, .cls .intC]⟩

theorem memC_iff (cs : Constraints) (c : PyClass) :
    memC cs c = true ↔ TypeEntry.cls c ∈ cs := by
  simp [memC]

theorem allTruthy (a : PyVal) : (elems a).all truthyClass = true := by
  simp [truthyClass]

theorem constrainScan_skip (cs : Constraints) (a : PyVal) (rest : List PyVal)
    (h1 : memC cs (classOf a) = false) (h2 : isIterable a = true) :
    constrainScan cs (a :: rest) = constrainScan cs rest := by
  simp [constrainScan, h1, h2, allTruthy]

/-- C1: the claimed invariant fails on the code. With constraints (int,),
insert(0, "x") delegates on the index (whose class int is in the
constraints) and stores the string "x" without any check, leaving an
element whose class str is not a member of the constraints tuple. -/
theorem C1_insert_breaks_invariant :
    Vec.insert ⟨[.vInt 1], [.cls .intC]⟩ (.vInt 0) (.vStr "x")
        = .ok ⟨[.vStr "x", .vInt 1], [.cls .intC]⟩
      ∧ memC [.cls .intC] (classOf (.vStr "x")) = false := by
  exact ⟨rfl, rfl⟩

/-- C2: a multi-element mutation given a batch mixing a valid element "d"
with an invalid float neither raises nor mutates: the guard skips the
list argument (its class list is not in the constraints, and it is
iterable with an always-true element test) and falls off the loop,
returning None with the container unchanged — no TypeError is raised. -/
theorem C2_mixed_batch_silent_noop :
    Vec.extend l3c (.vList [.vStr "d", .vFloat]) = .ok l3c
      ∧ l3c.data = [.vInt 1, .vStr "a"] := by
  exact ⟨rfl, rfl⟩

/-- C6: in the scenario of the demonstration, construction of l3 succeeds,
but extending with ["d", "b"] is a silent no-op (the list argument class
is not in (str, int)), leaving the data [1, "a"] instead of the claimed
[1, "a", "d", "b"]; appending a float does fail as claimed. -/
theorem C6_extend_scenario_noop :
    constrainedInit vecClassConstraints
        (some [.cls .strC, .cls .intC]) [.vInt 1, .vStr "a"] = .ok l3c
      ∧ Vec.extend l3c (.vList [.vStr "d", .vStr "b"]) = .ok l3c
      ∧ l3c.data = [.vInt 1, .vStr "a"]
      ∧ Vec.append l3c .vFloat = .error "Invalid type for argument" := by
  exact ⟨rfl, rfl, rfl, rfl⟩

/-- C3: an explicit constraints keyword argument always becomes the
resolved constraints tuple of the instance, whatever the class-level
declaration and whatever the runtime classes of the initial batch. -/
theorem C3_explicit_constraints_win (classC : Option Constraints)
    (cs : Constraints) (arg : List PyVal) :
    resolveConstraints classC (some cs) arg = cs
      ∧ ∀ v, constrainedInit classC (some cs) arg = .ok v →
          v.constraints = cs := by
  refine ⟨rfl, fun v h => ?_⟩
  simp only [constrainedInit, resolveConstraints] at h
  split at h
  · cases h; rfl
  · simp at h

/-- Witness for C3 at a concrete input: the class of Array declares int,
the batch holds a string, and the explicit tuple (str,) is what the
instance ends up with. -/
theorem C3_explicit_constraints_win_witness :
    constrainedInit arrayClassConstraints (some [.cls .strC]) [.vStr "a"]
        = .ok ⟨[.vStr "a"], [.cls .strC]⟩
      ∧ (⟨[.vStr "a"], [.cls .strC]⟩ : Vec).constraints = [.cls .strC] :=
  ⟨rfl, (C3_explicit_constraints_win arrayClassConstraints [.cls .strC]
      [.vStr "a"]).2 ⟨[.vStr "a"], [.cls .strC]⟩ rfl⟩

theorem memC_map_cls (xs : List PyClass) (c : PyClass) :
    memC (xs.map TypeEntry.cls) c = true ↔ c ∈ xs := by
  rw [memC_iff, List.mem_map]
  constructor
  · rintro ⟨x, hx, he⟩
    exact (TypeEntry.cls.inj he) ▸ hx
  · intro h
    exact ⟨c, h, rfl⟩

theorem memC_inferred (arg : List PyVal) (c : PyClass) :
    memC (inferredConstraints arg) c = true ↔ c ∈ arg.map classOf := by
  rw [inferredConstraints, memC_map_cls, List.mem_dedup]

/-- C4: with no explicit constraints argument and a class-level tuple that
is unset, empty or headed by a TypeVar, construction succeeds and the
resolved tuple is exactly the set of distinct runtime classes of the
initial batch: membership matches occurrence in the batch, and the tuple
has no duplicates. -/
theorem C4_inferred_constraints (classC : Option Constraints)
    (arg : List PyVal) (h : needsInference classC = true) :
    constrainedInit classC none arg = .ok ⟨arg, inferredConstraints arg⟩
      ∧ (∀ c : PyClass,
          memC (inferredConstraints arg) c = true ↔ c ∈ arg.map classOf)
      ∧ (inferredConstraints arg).Nodup := by
  refine ⟨?_, fun c => memC_inferred arg c, ?_⟩
  · have hres : resolveConstraints classC none arg
        = inferredConstraints arg := by
      simp [resolveConstraints, h]
    have hall : arg.all
        (fun x => memC (inferredConstraints arg) (classOf x)) = true := by
      rw [List.all_eq_true]
      intro x hx
      exact (memC_inferred arg (classOf x)).mpr (List.mem_map_of_mem _ hx)
    simp [constrainedInit, hres, hall]
  · exact (List.nodup_dedup _).map (fun a b hab => TypeEntry.cls.inj hab)

/-- Witness for C4 at a concrete input: Vec([1, 2, "a"]) resolves to the
two distinct classes int and str of the batch. -/
theorem C4_inferred_constraints_witness :
    constrainedInit vecClassConstraints none [.vInt 1, .vInt 2, .vStr "a"]
      = .ok ⟨[.vInt 1, .vInt 2, .vStr "a"], [.cls .intC, .cls .strC]⟩ :=
  (C4_inferred_constraints vecClassConstraints
    [.vInt 1, .vInt 2, .vStr "a"] rfl).1

/-- C5: whenever construction returns a container, the batch is stored in
order as the data list, the constraints are the resolved tuple, and every
batch element has its class in that tuple; and when some batch element
fails the resolved tuple, construction raises the TypeError of the
constrained init and no container is produced. -/
theorem C5_init_validates_batch (classC explicit : Option Constraints)
    (arg : List PyVal) :
    (∀ v, constrainedInit classC explicit arg = .ok v →
        v.data = arg
          ∧ v.constraints = resolveConstraints classC explicit arg
          ∧ ∀ x ∈ arg, memC v.constraints (classOf x) = true)
      ∧ ((¬ ∀ x ∈ arg,
            memC (resolveConstraints classC explicit arg) (classOf x) = true) →
          constrainedInit classC explicit arg
            = .error "Invalid value type for Constrained class") := by
  constructor
  · intro v h
    simp only [constrainedInit] at h
    split at h
    case isTrue hall =>
      cases h
      refine ⟨rfl, rfl, ?_⟩
      rw [List.all_eq_true] at hall
      exact hall
    case isFalse => simp at h
  · intro hbad
    simp only [constrainedInit]
    rw [if_neg]
    intro hall
    rw [List.all_eq_true] at hall
    exact hbad hall

/-- Witness for C5 at a concrete input: StrArray(["a"]) stores the batch
and its single element passes the membership test of the resolved tuple. -/
theorem C5_init_validates_batch_witness :
    (⟨[.vStr "a"], [.cls .strC]⟩ : Vec).data = [.vStr "a"]
      ∧ memC (⟨[.vStr "a"], [.cls .strC]⟩ : Vec).constraints
          (classOf (.vStr "a")) = true :=
  ⟨((C5_init_validates_batch strArrayClassConstraints none [.vStr "a"]).1
      ⟨[.vStr "a"], [.cls .strC]⟩ rfl).1,
   ((C5_init_validates_batch strArrayClassConstraints none [.vStr "a"]).1
      ⟨[.vStr "a"], [.cls .strC]⟩ rfl).2.2 (.vStr "a")
      (List.mem_singleton.mpr rfl)⟩

/-- C7 counterexample: the repetition count 2 is a genuine integer, yet
in-place repetition on a container whose constraints tuple is (str,)
raises the TypeError of the guard, because the guard tests membership of
the class of the count in the constraints, not its numeric kind. -/
theorem C7_counterexample_imul_rejected :
    Vec.imul ⟨[.vStr "a"], [.cls .strC]⟩ (.vInt 2)
      = .error "Invalid type for argument" := rfl

/-- C7 amended: in-place repetition with an integer count delegates to
the underlying list repetition exactly when the class int is a member of
the constraints tuple; when int is absent the guard raises its TypeError,
even though repetition introduces no new element classes. -/
theorem C7_imul_depends_on_membership (v : Vec) (n : Int) :
    (memC v.constraints .intC = true →
        Vec.imul v (.vInt n) = .ok ⟨listRepeat v.data n, v.constraints⟩)
      ∧ (memC v.constraints .intC = false →
        Vec.imul v (.vInt n) = .error "Invalid type for argument") := by
  constructor
  · intro h
    simp [Vec.imul, constrainedCall, constrainScan, classOf, h]
  · intro h
    simp [Vec.imul, constrainedCall, constrainScan, classOf, isIterable, h]

/-- Witness for C7 at concrete inputs: with int in the constraints the
data doubles; with constraints (str,) the call raises. -/
theorem C7_imul_depends_on_membership_witness :
    Vec.imul ⟨[.vInt 5], [.cls .intC]⟩ (.vInt 2)
        = .ok ⟨[.vInt 5, .vInt 5], [.cls .intC]⟩
      ∧ Vec.imul ⟨[.vStr "b"], [.cls .strC]⟩ (.vInt 3)
        = .error "Invalid type for argument" :=
  ⟨(C7_imul_depends_on_membership ⟨[.vInt 5], [.cls .intC]⟩ 2).1 rfl,
   (C7_imul_depends_on_membership ⟨[.vStr "b"], [.cls .strC]⟩ 3).2 rfl⟩

/-- C8 counterexample: Vec([]) constructs successfully, and its resolved
constraints tuple is empty — inference over an empty batch yields the
empty tuple, which is not filled in by anything. -/
theorem C8_counterexample_empty_batch :
    constrainedInit vecClassConstraints none [] = .ok ⟨[], []⟩ := rfl

/-- C8 amended: after every successful construction from a non-empty
initial batch the resolved constraints tuple is non-empty, because the
batch validation forces at least one membership; only an empty batch can
leave an empty tuple behind. -/
theorem C8_nonempty_batch_nonempty_constraints
    (classC explicit : Option Constraints) (arg : List PyVal) (v : Vec)
    (hne : arg ≠ []) (h : constrainedInit classC explicit arg = .ok v) :
    v.constraints ≠ [] := by
  cases arg with
  | nil => exact absurd rfl hne
  | cons a rest =>
    simp only [constrainedInit] at h
    split at h
    case isTrue hall =>
      cases h
      rw [List.all_eq_true] at hall
      have hm := hall a (List.mem_cons_self a rest)
      intro hnil
      have hnil2 : resolveConstraints classC explicit (a :: rest) = [] := hnil
      rw [hnil2] at hm
      simp [memC] at hm
    case isFalse => simp at h

/-- Witness for C8 at a concrete input: Array([7]) has the non-empty
tuple (int,). -/
theorem C8_nonempty_batch_nonempty_constraints_witness :
    (⟨[.vInt 7], [.cls .intC]⟩ : Vec).constraints ≠ [] :=
  C8_nonempty_batch_nonempty_constraints arrayClassConstraints none
    [.vInt 7] ⟨[.vInt 7], [.cls .intC]⟩ (List.cons_ne_nil _ _) rfl

/-- C9: whenever the class int is in the constraints tuple, insert
delegates on its first positional argument (the index) and stores the
element with no check at all — the element always ends up in the data
list, whatever its class. -/
theorem C9_insert_skips_element_check (v : Vec) (i : Int) (x : PyVal)
    (h : memC v.constraints .intC = true) :
    Vec.insert v (.vInt i) x = .ok ⟨pyInsertIdx v.data i x, v.constraints⟩
      ∧ x ∈ pyInsertIdx v.data i x := by
  constructor
  · simp [Vec.insert, constrainedCall, constrainScan, classOf, h, listInsert]
  · simp [pyInsertIdx]

/-- Witness for C9 at a concrete input: with constraints (int,), inserting
the string q at index 1 succeeds and stores it. -/
theorem C9_insert_skips_element_check_witness :
    Vec.insert ⟨[.vInt 4], [.cls .intC]⟩ (.vInt 1) (.vStr "q")
        = .ok ⟨[.vInt 4, .vStr "q"], [.cls .intC]⟩
      ∧ (.vStr "q") ∈ pyInsertIdx [.vInt 4] 1 (.vStr "q") :=
  C9_insert_skips_element_check ⟨[.vInt 4], [.cls .intC]⟩ 1 (.vStr "q") rfl

/-- C10: a guarded single-argument mutating call whose argument is an
iterable of a class outside the constraints tuple neither raises nor
mutates: the scan falls through without delegating, and extend, in-place
concatenation, append and in-place repetition all return with the
container unchanged (the insert method takes its index first, so its
first positional argument is never the batch). -/
theorem C10_foreign_iterable_silent_noop (v : Vec) (a : PyVal)
    (h1 : memC v.constraints (classOf a) = false)
    (h2 : isIterable a = true) :
    constrainScan v.constraints [a] = .fallthrough
      ∧ Vec.extend v a = .ok v
      ∧ Vec.iadd v a = .ok v
      ∧ Vec.append v a = .ok v
      ∧ Vec.imul v a = .ok v := by
  have hscan : constrainScan v.constraints [a] = .fallthrough :=
    (constrainScan_skip v.constraints a [] h1 h2).trans rfl
  refine ⟨hscan, ?_, ?_, ?_, ?_⟩ <;>
    simp [Vec.extend, Vec.iadd, Vec.append, Vec.imul, constrainedCall, hscan]

/-- Witness for C10 at a concrete input: extending an int-constrained
container with the list ["d"] does nothing at all, and the other guarded
calls behave the same. -/
theorem C10_foreign_iterable_silent_noop_witness :
    constrainScan [TypeEntry.cls .intC] [.vList [.vStr "d"]] = .fallthrough
      ∧ Vec.extend ⟨[.vInt 2], [.cls .intC]⟩ (.vList [.vStr "d"])
          = .ok ⟨[.vInt 2], [.cls .intC]⟩
      ∧ Vec.iadd ⟨[.vInt 2], [.cls .intC]⟩ (.vList [.vStr "d"])
          = .ok ⟨[.vInt 2], [.cls .intC]⟩
      ∧ Vec.append ⟨[.vInt 2], [.cls .intC]⟩ (.vList [.vStr "d"])
          = .ok ⟨[.vInt 2], [.cls .intC]⟩
      ∧ Vec.imul ⟨[.vInt 2], [.cls .intC]⟩ (.vList [.vStr "d"])
          = .ok ⟨[.vInt 2], [.cls .intC]⟩ :=
  C10_foreign_iterable_silent_noop ⟨[.vInt 2], [.cls .intC]⟩
    (.vList [.vStr "d"]) rfl rfl
